import Mathlib

/-!
Shallow embedding of the JNI bridge
`src/storage/sis-gdal/src/main/c/org_apache_sis_storage_gdal_PJ.c`
from Apache SIS.  C `double` values are modelled as real numbers; the IEEE
NaN produced on an invalid (null) handle is modelled by `Option ℝ` with
`none` standing for NaN.  A native `PJ*` pointer is `Option PJ`, with
`none` standing for the NULL pointer.
-/

/-- Model of the fields of the native Proj.4 `PJ` structure that the bridge
reads: `a_orig` (semi-major axis), `es_orig` (squared eccentricity), and the
results of the library predicates `pj_is_latlong` / `pj_is_geocent`. -/
structure PJ where
  a_orig : ℝ
  es_orig : ℝ
  is_latlong : Bool
  is_geocent : Bool

/-- NaN-propagating multiplication of modelled doubles (`none` = NaN). -/
def dmul : Option ℝ → Option ℝ → Option ℝ
  | some x, some y => some (x * y)
  | _, _ => none

/-- NaN-propagating subtraction of modelled doubles (`none` = NaN). -/
def dsub : Option ℝ → Option ℝ → Option ℝ
  | some x, some y => some (x - y)
  | _, _ => none

/-- NaN-propagating square root of a modelled double (`none` = NaN). -/
noncomputable def dsqrt : Option ℝ → Option ℝ
  | some x => some (Real.sqrt x)
  | none => none

/-- `Java_org_apache_sis_storage_gdal_PJ_getSemiMajorAxis`:
`return pj ? pj->a_orig : NAN;`. -/
def getSemiMajorAxis : Option PJ → Option ℝ
  | some pj => some pj.a_orig
  | none => none

/-- `Java_org_apache_sis_storage_gdal_PJ_getEccentricitySquared`:
`return pj ? pj->es_orig : NAN;`. -/
def getEccentricitySquared : Option PJ → Option ℝ
  | some pj => some pj.es_orig
  | none => none

/-- `Java_org_apache_sis_storage_gdal_PJ_getSemiMinorAxis`:
`if (!pj) return NAN; double a = pj->a_orig;
return sqrt(a*a * (1.0 - pj->es_orig));`. -/
noncomputable def getSemiMinorAxis : Option PJ → Option ℝ
  | some pj => some (Real.sqrt (pj.a_orig * pj.a_orig * (1 - pj.es_orig)))
  | none => none

/-- Claim C1: for every valid (non-null) handle whose semi-major axis is a
nonnegative length, the semi-minor axis query returns the semi-major axis
multiplied by the square root of one minus the squared-eccentricity query;
on a null handle all three queries return NaN. -/
theorem semiMinorAxis_spec :
    (∀ pj : PJ, 0 ≤ pj.a_orig →
      getSemiMinorAxis (some pj) =
        dmul (getSemiMajorAxis (some pj))
          (dsqrt (dsub (some 1) (getEccentricitySquared (some pj))))) ∧
    getSemiMinorAxis none = none ∧
    getSemiMajorAxis none = none ∧
    getEccentricitySquared none = none := by
  refine ⟨fun pj ha => ?_, rfl, rfl, rfl⟩
  simp only [getSemiMinorAxis, getSemiMajorAxis, getEccentricitySquared, dsub, dsqrt, dmul,
    Option.some.injEq]
  rw [Real.sqrt_mul (mul_self_nonneg pj.a_orig), Real.sqrt_mul_self ha]

/-- Claim C1, witness: the relation evaluated on the concrete handle with
semi-major axis 2 and squared eccentricity 0. -/
theorem semiMinorAxis_spec_witness :
    getSemiMinorAxis (some ⟨2, 0, false, false⟩) =
      dmul (getSemiMajorAxis (some ⟨2, 0, false, false⟩))
        (dsqrt (dsub (some 1) (getEccentricitySquared (some ⟨2, 0, false, false⟩)))) :=
  semiMinorAxis_spec.1 ⟨2, 0, false, false⟩ (by norm_num)

/-- The three members of the Java enumeration `PJ.Type`. -/
inductive CRSType where
  | GEOGRAPHIC
  | GEOCENTRIC
  | PROJECTED
deriving DecidableEq

/-- The name chosen by `Java_org_apache_sis_storage_gdal_PJ_getType`:
`if (pj_is_latlong(pj)) type = "GEOGRAPHIC";
else if (pj_is_geocent(pj)) type = "GEOCENTRIC"; else type = "PROJECTED";`. -/
def typeName (pj : PJ) : String :=
  if pj.is_latlong then "GEOGRAPHIC"
  else if pj.is_geocent then "GEOCENTRIC"
  else "PROJECTED"

/-- Model of the JNI static-field lookup performed by `getType`: given the
field name, `FindClass` followed by `GetStaticFieldID` and
`GetStaticObjectField` either produces the enum object stored under that
name or fails (`none`, when the class or the field cannot be located). -/
structure JEnv where
  lookupTypeField : String → Option CRSType

/-- The standard runtime environment, in which the class
`org/apache/sis/storage/gdal/PJ$Type` exists and each of its three static
fields holds the homonymous enumeration member. -/
def stdEnv : JEnv where
  lookupTypeField n :=
    if n = "GEOGRAPHIC" then some CRSType.GEOGRAPHIC
    else if n = "GEOCENTRIC" then some CRSType.GEOCENTRIC
    else if n = "PROJECTED" then some CRSType.PROJECTED
    else none

/-- `Java_org_apache_sis_storage_gdal_PJ_getType`: on a null handle return
NULL; otherwise pick the name by the latlong/geocent predicates and resolve
it by static lookup, returning NULL when the lookup fails. -/
def getType (env : JEnv) : Option PJ → Option CRSType
  | none => none
  | some pj => env.lookupTypeField (typeName pj)

/-- Claim C2: for every valid handle `getType` in the standard environment
returns exactly the member selected by the geographic predicate first, then
the geocentric predicate, else PROJECTED (hence always one of the three);
in any environment it returns null when the name lookup fails, and null on
a null handle. -/
theorem getType_spec :
    (∀ pj : PJ,
      getType stdEnv (some pj) =
        some (if pj.is_latlong then CRSType.GEOGRAPHIC
              else if pj.is_geocent then CRSType.GEOCENTRIC
              else CRSType.PROJECTED)) ∧
    (∀ (env : JEnv) (pj : PJ),
      env.lookupTypeField (typeName pj) = none → getType env (some pj) = none) ∧
    (∀ env : JEnv, getType env none = none) := by
  refine ⟨fun pj => ?_, fun env pj h => h, fun env => rfl⟩
  cases hlat : pj.is_latlong <;> cases hgeo : pj.is_geocent <;>
    simp [getType, typeName, stdEnv, hlat, hgeo]

/-- Claim C2, witness: a geocentric handle (both predicates checked, the
geographic one first) resolves to GEOCENTRIC, and a failing lookup gives
null. -/
theorem getType_spec_witness :
    getType stdEnv (some ⟨1, 0, false, true⟩) = some CRSType.GEOCENTRIC ∧
    getType ⟨fun _ => none⟩ (some ⟨1, 0, false, true⟩) = none := by
  constructor
  · have h := getType_spec.1 ⟨1, 0, false, true⟩
    simpa using h
  · exact getType_spec.2.1 ⟨fun _ => none⟩ ⟨1, 0, false, true⟩ rfl

/-- Model of the managed `PJ` wrapper object as seen by the finalizer:
whether the JNI lookup of the field "ptr" (type "J") succeeds, and the
current `jlong` value of that field (the native pointer as an integer,
0 = NULL). -/
structure PJObj where
  hasField : Bool
  ptr : ℤ

/-- Events performed by the finalizer on the managed runtime and the
native library: writing the "ptr" field, and calling `pj_free` on a
pointer. -/
inductive FEv where
  | setPtr (v : ℤ)
  | freePJ (p : ℤ)
deriving DecidableEq

/-- `Java_org_apache_sis_storage_gdal_PJ_finalize`: look up the "ptr"
field; if found and non-zero, set the field to 0 and then free the native
structure. Returns the updated object and the ordered list of performed
events. -/
def finalizePJ (obj : PJObj) : PJObj × List FEv :=
  if obj.hasField then
    if obj.ptr ≠ 0 then (⟨obj.hasField, 0⟩, [FEv.setPtr 0, FEv.freePJ obj.ptr])
    else (obj, [])
  else (obj, [])

/-- Number of `pj_free` calls in an event list. -/
def countFrees (evs : List FEv) : ℕ :=
  evs.countP fun e => match e with | FEv.freePJ _ => true | _ => false

/-- Claim C9: the finalizer reads the stored handle; when non-zero it
zeroes the field first and only then frees that handle (the `setPtr 0`
event precedes the single `freePJ`), when zero it frees nothing; two
successive invocations free at most once, and after any invocation the
field is zero. -/
theorem finalizePJ_spec :
    ∀ obj : PJObj, obj.hasField = true →
      (obj.ptr ≠ 0 →
        finalizePJ obj = (⟨true, 0⟩, [FEv.setPtr 0, FEv.freePJ obj.ptr])) ∧
      (obj.ptr = 0 → finalizePJ obj = (obj, [])) ∧
      countFrees ((finalizePJ obj).2 ++ (finalizePJ (finalizePJ obj).1).2) ≤ 1 ∧
      (finalizePJ obj).1.ptr = 0 ∧
      (finalizePJ (finalizePJ obj).1).1.ptr = 0 := by
  intro obj hf
  obtain ⟨_, p⟩ := obj
  simp only at hf
  subst hf
  by_cases hp : p = 0
  · subst hp
    simp [finalizePJ, countFrees]
  · simp [finalizePJ, hp, countFrees]

/-- Claim C9, witness: finalizing the wrapper holding native pointer 7
zeroes the field then frees 7, and a second finalization frees nothing. -/
theorem finalizePJ_spec_witness :
    finalizePJ ⟨true, 7⟩ = (⟨true, 0⟩, [FEv.setPtr 0, FEv.freePJ 7]) ∧
    countFrees ((finalizePJ ⟨true, 7⟩).2 ++ (finalizePJ (finalizePJ ⟨true, 7⟩).1).2) ≤ 1 ∧
    (finalizePJ (finalizePJ ⟨true, 7⟩).1).1.ptr = 0 := by
  have h := finalizePJ_spec ⟨true, 7⟩ rfl
  exact ⟨h.1 (by norm_num), h.2.2.1, h.2.2.2.2⟩

/-- `(*data) *= factor` at position `i` of the buffer. -/
def mulAt (factor : ℝ) : List ℝ → ℕ → List ℝ
  | [], _ => []
  | x :: xs, 0 => (x * factor) :: xs
  | x :: xs, n + 1 => x :: mulAt factor xs n

/-- `n` consecutive `(*data++) *= factor` multiplications starting at
position `pos`. -/
def mulRange (factor : ℝ) : List ℝ → ℕ → ℕ → List ℝ
  | data, _, 0 => data
  | data, pos, n + 1 => mulRange factor (mulAt factor data pos) (pos + 1) n

/-- The `while (data != stop)` loop of `convertAngularOrdinates`: each
iteration multiplies `nMul` consecutive ordinates by `factor` and advances
the cursor by `nMul + skip`.  The C loop runs until the cursor is exactly
equal to `stop`; if the cursor overshoots `stop` (or never advances) the C
loop never terminates, modelled by `none`. -/
def convLoop (factor : ℝ) (nMul skip stop : ℕ) (pos : ℕ) (data : List ℝ) :
    Option (List ℝ) :=
  if h : pos = stop then some data
  else if h2 : stop < pos ∨ nMul + skip = 0 then none
  else convLoop factor nMul skip stop (pos + (nMul + skip)) (mulRange factor data pos nMul)
termination_by stop - pos
decreasing_by
  push_neg at h2
  omega

/-- Body of `convertAngularOrdinates` after `dimToSkip` has been chosen:
`if (dimToSkip > 0)` run the two-multiplications-then-skip loop, else
multiply every ordinate up to `stop`. -/
def convertBody (dimToSkip : ℤ) (factor : ℝ) (stop : ℕ) (data : List ℝ) :
    Option (List ℝ) :=
  if 0 < dimToSkip then convLoop factor 2 dimToSkip.toNat stop 0 data
  else convLoop factor 1 0 stop 0 data

/-- `convertAngularOrdinates(pj, data, numPts, dimension, factor)`:
`dimToSkip = dimension - 2` when `pj_is_latlong(pj)`,
`dimToSkip = dimension - 3` when `pj_is_geocent(pj)`, otherwise return
unchanged; `stop = data + dimension*numPts`. -/
def convertAngularOrdinates (pj : PJ) (data : List ℝ) (numPts dimension : ℕ)
    (factor : ℝ) : Option (List ℝ) :=
  if pj.is_latlong then
    convertBody ((dimension : ℤ) - 2) factor (dimension * numPts) data
  else if pj.is_geocent then
    convertBody ((dimension : ℤ) - 3) factor (dimension * numPts) data
  else some data

/-- Unfolding `convLoop` when the cursor has reached `stop`. -/
theorem convLoop_eq_stop (factor : ℝ) (nMul skip stop : ℕ) (data : List ℝ) :
    convLoop factor nMul skip stop stop data = some data := by
  rw [convLoop]
  simp

/-- Unfolding one iteration of `convLoop` while the cursor is below
`stop` and the stride is positive. -/
theorem convLoop_eq_step (factor : ℝ) (nMul skip stop pos : ℕ) (data : List ℝ)
    (h2 : pos < stop) (h3 : 0 < nMul + skip) :
    convLoop factor nMul skip stop pos data =
      convLoop factor nMul skip stop (pos + (nMul + skip)) (mulRange factor data pos nMul) := by
  rw [convLoop]
  rw [dif_neg (by omega), dif_neg (by omega)]

/-- Unfolding `convLoop` when the cursor has overshot `stop`: the C loop
condition `data != stop` never becomes false, so the loop never exits. -/
theorem convLoop_eq_overshoot (factor : ℝ) (nMul skip stop pos : ℕ) (data : List ℝ)
    (h : stop < pos) :
    convLoop factor nMul skip stop pos data = none := by
  rw [convLoop]
  rw [dif_neg (by omega), dif_pos (Or.inl h)]

/-- Claim C3 (refuting evaluation): for a geocentric system the loop
multiplies only 2 ordinates per iteration but advances the cursor by
`2 + (dimension - 3)`, a stride of `dimension - 1`.  With dimension 4,
three points of 1s and factor 2 it yields `[2,2,1,2,2,1,2,2,1,2,2,1]`
(two of every three ordinates scaled), not the
`[2,2,2,1,2,2,2,1,2,2,2,1]` that "exactly the first 3 ordinates of every
tuple" requires; and with a single 4-dimensional point the cursor jumps
from 3 to 6 past `stop = 4`, so the loop never terminates. -/
theorem convertAngular_geocent_bug :
    convertAngularOrdinates ⟨1, 0, false, true⟩
        [1,1,1,1,1,1,1,1,1,1,1,1] 3 4 2 = some [2,2,1,2,2,1,2,2,1,2,2,1] ∧
    convertAngularOrdinates ⟨1, 0, false, true⟩
        [1,1,1,1,1,1,1,1,1,1,1,1] 3 4 2 ≠ some [2,2,2,1,2,2,2,1,2,2,2,1] ∧
    convertAngularOrdinates ⟨1, 0, false, true⟩ [1,1,1,1] 1 4 2 = none := by
  refine ⟨?_, ?_, ?_⟩
  · norm_num [convertAngularOrdinates, convertBody, convLoop_eq_step, convLoop_eq_stop,
      mulRange, mulAt]
  · norm_num [convertAngularOrdinates, convertBody, convLoop_eq_step, convLoop_eq_stop,
      mulRange, mulAt]
  · norm_num [convertAngularOrdinates, convertBody, convLoop_eq_step, convLoop_eq_overshoot,
      mulRange, mulAt]

/-- The Java exceptions thrown by `Java_org_apache_sis_storage_gdal_PJ_transform`:
`NullPointerException`, `IllegalArgumentException`,
`ArrayIndexOutOfBoundsException` and `TransformException` (the last one
carrying `pj_strerrno(err)`). -/
inductive JErr where
  | nullPointer
  | illegalArgument
  | outOfBounds
  | transformFailure (msg : String)
deriving DecidableEq

/-- Observable events of a `transform` call, in the order performed:
reading a handle with `getPJ`, `GetPrimitiveArrayCritical`, the native
`pj_transform` call (with its returned error code),
`ReleasePrimitiveArrayCritical`, and throwing an exception. -/
inductive Ev where
  | readHandle
  | getCritical
  | callNative (err : ℤ)
  | releaseCritical
  | throwErr (e : JErr)
deriving DecidableEq

/-- A managed object passed as the `target` argument: `getPJ` on it yields
its `pj` field (`none` when the stored pointer is NULL or the field is
missing). -/
structure JObj where
  pj : Option PJ

/-- The opaque native library side of a `transform` call: what
`pj_transform(src, dst, numPts, dimension, x, y, z)` does to the addressed
segment of the buffer and which error code it returns, the
`pj_strerrno` message table, and whether `GetPrimitiveArrayCritical`
succeeds. -/
structure Native where
  pj_transform : PJ → PJ → ℕ → ℕ → List ℝ → List ℝ × ℤ
  strerrno : ℤ → String
  criticalOk : Bool

/-- Two's-complement wrap of a mathematical integer into the 32-bit
`jint` range [-2147483648, 2147483648): the value actually produced by
the C `int` multiplication and addition in the bounds check
`(offset + dimension*numPts) > GetArrayLength(...)`. -/
def wrap32 (n : ℤ) : ℤ := (n + 2147483648) % 4294967296 - 2147483648

/-- `wrap32` is the identity on values already in the `jint` range. -/
theorem wrap32_eq_self (n : ℤ) (h1 : -2147483648 ≤ n) (h2 : n < 2147483648) :
    wrap32 n = n := by
  unfold wrap32
  rw [Int.emod_eq_of_lt (by omega) (by omega)]
  omega

/-- `wrap32` never exceeds the largest `jint`. -/
theorem wrap32_ub (n : ℤ) : wrap32 n < 2147483648 := by
  have h := Int.emod_lt_of_pos (n + 2147483648) (by norm_num : (0 : ℤ) < 4294967296)
  unfold wrap32
  omega

/-- When the mathematical bound `offset + dimension*numPts ≤ len` holds
with nonnegative `offset`, `numPts` and `dimension`, the 32-bit-wrapped
sum also passes the program's comparison against `len`. -/
theorem wrap32_checkPass (offset dimension numPts len : ℤ)
    (ho : 0 ≤ offset) (hn : 0 ≤ numPts) (hd : 0 ≤ dimension)
    (hb : offset + dimension * numPts ≤ len) :
    wrap32 (offset + wrap32 (dimension * numPts)) ≤ len := by
  have hp : 0 ≤ dimension * numPts := mul_nonneg hd hn
  by_cases hs : offset + dimension * numPts < 2147483648
  · rw [wrap32_eq_self (dimension * numPts) (by omega) (by omega),
      wrap32_eq_self (offset + dimension * numPts) (by omega) (by omega)]
    exact hb
  · have h := wrap32_ub (offset + wrap32 (dimension * numPts))
    omega

/-- The body of `transform` once all three argument checks have passed and
both handles are valid: obtain critical access (silently do nothing if it
fails), convert the source angular ordinates to radians, run the native
transform, convert the target angular ordinates back to degrees, release
the buffer, and only then throw `TransformException` if the native error
code was nonzero.  `none` models a run that never terminates inside
`convertAngularOrdinates`. -/
noncomputable def transformCore (nat : Native) (src dst : PJ) (dimension : ℤ)
    (coords : List ℝ) (offset numPts : ℤ) : Option (List Ev × Option (List ℝ)) :=
  if nat.criticalOk then
    match convertAngularOrdinates src (coords.drop offset.toNat) numPts.toNat
        dimension.toNat (Real.pi / 180) with
    | none => none
    | some r1 =>
      match nat.pj_transform src dst numPts.toNat dimension.toNat r1 with
      | (r2, err) =>
        match convertAngularOrdinates dst r2 numPts.toNat dimension.toNat (180 / Real.pi) with
        | none => none
        | some r3 =>
          some (Ev.readHandle :: Ev.readHandle :: Ev.getCritical :: Ev.callNative err ::
                  Ev.releaseCritical ::
                  (if err ≠ 0 then [Ev.throwErr (JErr.transformFailure (nat.strerrno err))]
                   else []),
                some (coords.take offset.toNat ++ r3))
  else some ([Ev.readHandle, Ev.readHandle], some coords)

/-- `Java_org_apache_sis_storage_gdal_PJ_transform`: validate that `target`
and `coordinates` are non-null, that `dimension` lies in [2, 100], and
that `offset` and `numPts` are nonnegative and
`offset + dimension*numPts` — computed in wrapping 32-bit `jint`
arithmetic, as the C `int` expression of line 347 does — does not exceed
the array length; the checks run in that order, throwing one exception
and returning at the first violation; then read the two handles with
`getPJ` and, only when both are non-null, run the core; otherwise
silently do nothing.  The result pairs the event trace with the final
content of the coordinates array (`none` when the array reference itself
was null). -/
noncomputable def transform (nat : Native) (srcPJ : Option PJ) (target : Option JObj)
    (dimension : ℤ) (coordinates : Option (List ℝ)) (offset numPts : ℤ) :
    Option (List Ev × Option (List ℝ)) :=
  match target, coordinates with
  | none, cs => some ([Ev.throwErr JErr.nullPointer], cs)
  | some _, none => some ([Ev.throwErr JErr.nullPointer], none)
  | some tgt, some coords =>
    if dimension < 2 ∨ 100 < dimension then
      some ([Ev.throwErr JErr.illegalArgument], some coords)
    else if offset < 0 ∨ numPts < 0 ∨
        (coords.length : ℤ) < wrap32 (offset + wrap32 (dimension * numPts)) then
      some ([Ev.throwErr JErr.outOfBounds], some coords)
    else
      match srcPJ, tgt.pj with
      | some src, some dst => transformCore nat src dst dimension coords offset numPts
      | _, _ => some ([Ev.readHandle, Ev.readHandle], some coords)

/-- A concrete native side used by witnesses: the identity transform
reporting success. -/
def natOk : Native :=
  ⟨fun _ _ _ _ data => (data, 0), fun _ => "", true⟩

/-- A concrete native side used by witnesses: the identity transform
reporting error code 1 with a fixed message table. -/
def natFail : Native :=
  ⟨fun _ _ _ _ data => (data, 1), fun _ => "transform failed", true⟩

/-- Claim C7: when the target reference or the coordinates array is null,
`transform` throws `NullPointerException` and nothing else happens: no
handle read, no conversion, no native call, and the buffer is returned
unchanged. -/
theorem transform_missingArgument (nat : Native) (srcPJ : Option PJ)
    (target : Option JObj) (dimension : ℤ) (coordinates : Option (List ℝ))
    (offset numPts : ℤ)
    (h : target = none ∨ coordinates = none) :
    transform nat srcPJ target dimension coordinates offset numPts =
      some ([Ev.throwErr JErr.nullPointer], coordinates) := by
  rcases h with h | h
  · subst h
    rfl
  · subst h
    cases target <;> rfl

/-- Claim C7, witness: a call with a null target throws
`NullPointerException` and leaves the two-element buffer unchanged. -/
theorem transform_missingArgument_witness :
    transform natOk none none 2 (some [1, 2]) 0 1 =
      some ([Ev.throwErr JErr.nullPointer], some [1, 2]) :=
  transform_missingArgument natOk none none 2 (some [1, 2]) 0 1 (Or.inl rfl)

/-- Claim C6: with non-null target and buffer, a dimension below 2 or
above 100 makes `transform` throw `IllegalArgumentException` and return
the buffer untouched. -/
theorem transform_illegalDimension (nat : Native) (srcPJ : Option PJ) (tgt : JObj)
    (dimension : ℤ) (coords : List ℝ) (offset numPts : ℤ)
    (h : dimension < 2 ∨ 100 < dimension) :
    transform nat srcPJ (some tgt) dimension (some coords) offset numPts =
      some ([Ev.throwErr JErr.illegalArgument], some coords) := by
  simp only [transform]
  rw [if_pos h]

/-- Claim C6, witness: dimension 1 (and, in a second conjunct,
dimension 101) throws `IllegalArgumentException` with the buffer
untouched. -/
theorem transform_illegalDimension_witness :
    transform natOk none (some ⟨none⟩) 1 (some [1, 2]) 0 1 =
      some ([Ev.throwErr JErr.illegalArgument], some [1, 2]) ∧
    transform natOk none (some ⟨none⟩) 101 (some [1, 2]) 0 1 =
      some ([Ev.throwErr JErr.illegalArgument], some [1, 2]) :=
  ⟨transform_illegalDimension natOk none ⟨none⟩ 1 [1, 2] 0 1 (Or.inl (by norm_num)),
   transform_illegalDimension natOk none ⟨none⟩ 101 [1, 2] 0 1 (Or.inr (by norm_num))⟩

/-- Claim C4, counterexample: with offset 0, dimension 2 and
numPts 2^30 = 1073741824 against a buffer of length 10, the mathematical
sum 0 + 2·2^30 = 2^31 exceeds the length, so the claim demands an
out-of-bounds error; but the 32-bit `jint` product wraps to -2^31, the
check at line 347 falls through, and `transform` proceeds to read the
handles instead of throwing `ArrayIndexOutOfBoundsException`. -/
theorem transform_outOfBounds_cex :
    (10 : ℤ) < 0 + 2 * 1073741824 ∧
    transform natOk none (some ⟨none⟩) 2
        (some [0, 0, 0, 0, 0, 0, 0, 0, 0, 0]) 0 1073741824 =
      some ([Ev.readHandle, Ev.readHandle], some [0, 0, 0, 0, 0, 0, 0, 0, 0, 0]) ∧
    transform natOk none (some ⟨none⟩) 2
        (some [0, 0, 0, 0, 0, 0, 0, 0, 0, 0]) 0 1073741824 ≠
      some ([Ev.throwErr JErr.outOfBounds], some [0, 0, 0, 0, 0, 0, 0, 0, 0, 0]) := by
  have key : transform natOk none (some ⟨none⟩) 2
      (some [0, 0, 0, 0, 0, 0, 0, 0, 0, 0]) 0 1073741824 =
      some ([Ev.readHandle, Ev.readHandle], some [0, 0, 0, 0, 0, 0, 0, 0, 0, 0]) := by
    simp only [transform]
    rw [if_neg (by norm_num), if_neg (by norm_num [wrap32])]
  refine ⟨by norm_num, key, ?_⟩
  rw [key]
  simp

/-- Claim C4 (amended): with non-null target and buffer and a dimension in
[2, 100], a negative offset, a negative point count, or
`offset + dimension*numPts` exceeding the array length — provided
`dimension*numPts` and `offset + dimension*numPts` do not overflow the
32-bit `jint` range — makes `transform` throw
`ArrayIndexOutOfBoundsException` and return the buffer untouched. -/
theorem transform_outOfBounds (nat : Native) (srcPJ : Option PJ) (tgt : JObj)
    (dimension : ℤ) (coords : List ℝ) (offset numPts : ℤ)
    (hdl : 2 ≤ dimension) (hdu : dimension ≤ 100)
    (h : offset < 0 ∨ numPts < 0 ∨
      ((coords.length : ℤ) < offset + dimension * numPts ∧
        dimension * numPts < 2147483648 ∧
        offset + dimension * numPts < 2147483648)) :
    transform nat srcPJ (some tgt) dimension (some coords) offset numPts =
      some ([Ev.throwErr JErr.outOfBounds], some coords) := by
  have hcond : offset < 0 ∨ numPts < 0 ∨
      (coords.length : ℤ) < wrap32 (offset + wrap32 (dimension * numPts)) := by
    rcases h with h | h | ⟨hlen, hm, hs⟩
    · exact Or.inl h
    · exact Or.inr (Or.inl h)
    · by_cases ho : offset < 0
      · exact Or.inl ho
      · by_cases hq : numPts < 0
        · exact Or.inr (Or.inl hq)
        · push_neg at ho hq
          have hp : 0 ≤ dimension * numPts := mul_nonneg (by omega) hq
          rw [wrap32_eq_self (dimension * numPts) (by omega) (by omega),
            wrap32_eq_self (offset + dimension * numPts) (by omega) (by omega)]
          exact Or.inr (Or.inr hlen)
  simp only [transform]
  rw [if_neg (by omega), if_pos hcond]

/-- Claim C4, witness: the spec's example — offset 5, 3 points of
dimension 2 against a buffer of length 10 (5 + 2·3 = 11 > 10), far from
the 32-bit overflow threshold. -/
theorem transform_outOfBounds_witness :
    transform natOk none (some ⟨none⟩) 2 (some [0, 0, 0, 0, 0, 0, 0, 0, 0, 0]) 5 3 =
      some ([Ev.throwErr JErr.outOfBounds], some [0, 0, 0, 0, 0, 0, 0, 0, 0, 0]) :=
  transform_outOfBounds natOk none ⟨none⟩ 2 [0, 0, 0, 0, 0, 0, 0, 0, 0, 0] 5 3
    (by norm_num) (by norm_num)
    (Or.inr (Or.inr (by norm_num)))

/-- Claim C5: when all three argument checks pass but the source handle or
the target handle resolves to NULL, `transform` is a silent no-op: both
handles are read, no exception is thrown, nothing else runs, and the
buffer is returned unchanged. -/
theorem transform_nullHandle_noop (nat : Native) (srcPJ : Option PJ) (tgt : JObj)
    (dimension : ℤ) (coords : List ℝ) (offset numPts : ℤ)
    (hdl : 2 ≤ dimension) (hdu : dimension ≤ 100)
    (ho : 0 ≤ offset) (hn : 0 ≤ numPts)
    (hb : offset + dimension * numPts ≤ (coords.length : ℤ))
    (h : srcPJ = none ∨ tgt.pj = none) :
    transform nat srcPJ (some tgt) dimension (some coords) offset numPts =
      some ([Ev.readHandle, Ev.readHandle], some coords) := by
  have hpass : ¬(offset < 0 ∨ numPts < 0 ∨
      (coords.length : ℤ) < wrap32 (offset + wrap32 (dimension * numPts))) := by
    push_neg
    exact ⟨ho, hn, wrap32_checkPass offset dimension numPts _ ho hn (by omega) hb⟩
  simp only [transform]
  rw [if_neg (by omega), if_neg hpass]
  obtain ⟨tpj⟩ := tgt
  rcases h with h | h
  · subst h
    rfl
  · simp only at h
    subst h
    cases srcPJ <;> rfl

/-- Claim C5, witness: a validated call whose source handle is NULL leaves
the buffer `[1, 2]` unchanged and throws nothing. -/
theorem transform_nullHandle_noop_witness :
    transform natOk none (some ⟨some ⟨1, 0, false, false⟩⟩) 2 (some [1, 2]) 0 1 =
      some ([Ev.readHandle, Ev.readHandle], some [1, 2]) :=
  transform_nullHandle_noop natOk none ⟨some ⟨1, 0, false, false⟩⟩ 2 [1, 2] 0 1
    (by norm_num) (by norm_num) (by norm_num) (by norm_num) (by norm_num)
    (Or.inl rfl)

/-- Claim C8: on the full path (checks passed, both handles valid,
critical access granted, both angular conversions terminating), the trace
ends with the buffer release followed by exactly one
`TransformException` carrying `pj_strerrno(err)` when the native error
code is nonzero — and by no exception at all when it is zero — and the
returned buffer holds the committed, back-converted data. -/
theorem transform_nativeError (nat : Native) (src dst : PJ) (tgt : JObj)
    (dimension : ℤ) (coords r1 r2 r3 : List ℝ) (offset numPts : ℤ) (err : ℤ)
    (hdl : 2 ≤ dimension) (hdu : dimension ≤ 100)
    (ho : 0 ≤ offset) (hn : 0 ≤ numPts)
    (hb : offset + dimension * numPts ≤ (coords.length : ℤ))
    (htgt : tgt.pj = some dst)
    (hcrit : nat.criticalOk = true)
    (hc1 : convertAngularOrdinates src (coords.drop offset.toNat) numPts.toNat
      dimension.toNat (Real.pi / 180) = some r1)
    (hnat : nat.pj_transform src dst numPts.toNat dimension.toNat r1 = (r2, err))
    (hc2 : convertAngularOrdinates dst r2 numPts.toNat dimension.toNat
      (180 / Real.pi) = some r3) :
    transform nat (some src) (some tgt) dimension (some coords) offset numPts =
      some (Ev.readHandle :: Ev.readHandle :: Ev.getCritical :: Ev.callNative err ::
              Ev.releaseCritical ::
              (if err ≠ 0 then [Ev.throwErr (JErr.transformFailure (nat.strerrno err))]
               else []),
            some (coords.take offset.toNat ++ r3)) := by
  have hpass : ¬(offset < 0 ∨ numPts < 0 ∨
      (coords.length : ℤ) < wrap32 (offset + wrap32 (dimension * numPts))) := by
    push_neg
    exact ⟨ho, hn, wrap32_checkPass offset dimension numPts _ ho hn (by omega) hb⟩
  simp only [transform]
  rw [if_neg (by omega), if_neg hpass]
  obtain ⟨tpj⟩ := tgt
  simp only at htgt
  subst htgt
  simp only [transformCore, hcrit, if_true, hc1, hnat, hc2]

/-- Claim C8, witness: a non-angular source and target with a native side
returning error code 1 produce the release-then-single-throw trace with
the message "transform failed", on the concrete buffer `[5, 6]`. -/
theorem transform_nativeError_witness :
    transform natFail (some ⟨1, 0, false, false⟩) (some ⟨some ⟨1, 0, false, false⟩⟩)
        2 (some [5, 6]) 0 1 =
      some ([Ev.readHandle, Ev.readHandle, Ev.getCritical, Ev.callNative 1,
              Ev.releaseCritical, Ev.throwErr (JErr.transformFailure "transform failed")],
            some [5, 6]) := by
  have h := transform_nativeError natFail ⟨1, 0, false, false⟩ ⟨1, 0, false, false⟩
    ⟨some ⟨1, 0, false, false⟩⟩ 2 [5, 6] [5, 6] [5, 6] [5, 6] 0 1 1
    (by norm_num) (by norm_num) (by norm_num) (by norm_num) (by norm_num)
    rfl rfl
    (by simp [convertAngularOrdinates])
    rfl
    (by simp [convertAngularOrdinates])
  simpa using h

/-- Claim C10: the three argument validations run in a fixed order —
missing-argument, then illegal-argument, then out-of-bounds (the bounds
comparison being the program's own, computed in wrapping 32-bit `jint`
arithmetic) — each returning immediately with its single exception and
the untouched buffer, so the first violated check wins; and any run
whose trace contains a `getPJ` handle read satisfied all three checks as
the program evaluates them. -/
theorem transform_checkPriority (nat : Native) (srcPJ : Option PJ)
    (target : Option JObj) (dimension : ℤ) (coordinates : Option (List ℝ))
    (offset numPts : ℤ) :
    (target = none ∨ coordinates = none →
      transform nat srcPJ target dimension coordinates offset numPts =
        some ([Ev.throwErr JErr.nullPointer], coordinates)) ∧
    (∀ tgt coords, target = some tgt → coordinates = some coords →
      (dimension < 2 ∨ 100 < dimension) →
      transform nat srcPJ target dimension coordinates offset numPts =
        some ([Ev.throwErr JErr.illegalArgument], some coords)) ∧
    (∀ tgt coords, target = some tgt → coordinates = some coords →
      2 ≤ dimension → dimension ≤ 100 →
      (offset < 0 ∨ numPts < 0 ∨
        (coords.length : ℤ) < wrap32 (offset + wrap32 (dimension * numPts))) →
      transform nat srcPJ target dimension coordinates offset numPts =
        some ([Ev.throwErr JErr.outOfBounds], some coords)) ∧
    (∀ trace buffer,
      transform nat srcPJ target dimension coordinates offset numPts =
        some (trace, buffer) →
      Ev.readHandle ∈ trace →
      target ≠ none ∧ coordinates ≠ none ∧
      2 ≤ dimension ∧ dimension ≤ 100 ∧
      0 ≤ offset ∧ 0 ≤ numPts ∧
      ∀ coords, coordinates = some coords →
        wrap32 (offset + wrap32 (dimension * numPts)) ≤ (coords.length : ℤ)) := by
  refine ⟨fun h => ?_, fun tgt coords ht hc h => ?_, fun tgt coords ht hc h1 h2 h => ?_,
    fun trace buffer heq hmem => ?_⟩
  · rcases h with h | h
    · subst h
      rfl
    · subst h
      cases target <;> rfl
  · subst ht
    subst hc
    simp only [transform]
    rw [if_pos h]
  · subst ht
    subst hc
    simp only [transform]
    rw [if_neg (by omega), if_pos h]
  · match htgt : target, hcs : coordinates with
    | none, cs =>
      subst htgt hcs
      simp only [transform, Option.some.injEq, Prod.mk.injEq] at heq
      rw [← heq.1] at hmem
      simp at hmem
    | some tgt, none =>
      subst htgt hcs
      simp only [transform, Option.some.injEq, Prod.mk.injEq] at heq
      rw [← heq.1] at hmem
      simp at hmem
    | some tgt, some coords =>
      subst htgt hcs
      simp only [transform] at heq
      by_cases hd : dimension < 2 ∨ 100 < dimension
      · rw [if_pos hd] at heq
        simp only [Option.some.injEq, Prod.mk.injEq] at heq
        rw [← heq.1] at hmem
        simp at hmem
      · rw [if_neg hd] at heq
        by_cases hbnd : offset < 0 ∨ numPts < 0 ∨
            (coords.length : ℤ) < wrap32 (offset + wrap32 (dimension * numPts))
        · rw [if_pos hbnd] at heq
          simp only [Option.some.injEq, Prod.mk.injEq] at heq
          rw [← heq.1] at hmem
          simp at hmem
        · push_neg at hd hbnd
          refine ⟨by simp, by simp, by omega, by omega, hbnd.1, hbnd.2.1, ?_⟩
          intro cs hcs
          cases hcs
          exact hbnd.2.2

/-- Claim C10, witness: on one call violating all three preconditions at
once (null target, dimension 1, negative offset and count) only
`NullPointerException` is thrown; with non-null arguments and both the
dimension and the bounds invalid, only `IllegalArgumentException` is
thrown. -/
theorem transform_checkPriority_witness :
    transform natOk none none 1 (some [1]) (-1) (-1) =
      some ([Ev.throwErr JErr.nullPointer], some [1]) ∧
    transform natOk none (some ⟨none⟩) 1 (some [1]) (-1) (-1) =
      some ([Ev.throwErr JErr.illegalArgument], some [1]) :=
  ⟨(transform_checkPriority natOk none none 1 (some [1]) (-1) (-1)).1 (Or.inl rfl),
   (transform_checkPriority natOk none (some ⟨none⟩) 1 (some [1]) (-1) (-1)).2.1
     ⟨none⟩ [1] rfl rfl (Or.inl (by norm_num))⟩
